import Mathlib

/-!
Shallow embedding of the FRC-4121 Vision-Motion repository
(`src/Vision/FRCVisionLibrary.py`, `src/Motion/FRCNavxLibrary.py`).

The image-processing backend (OpenCV) is external to the repository: a
contour is therefore represented by the measurements the library reads off
it (`cv.contourArea`, `cv.minEnclosingCircle`, `cv.boundingRect`,
`cv.minAreaRect`, `cv.boxPoints`).  Python floats are modelled as real
numbers (rationals where only parsing is involved); Python dictionaries
keyed by strings as insertion-ordered association lists; a raised exception
as `none`.  String primitives (`strip`, `split`, `upper`, `int`, `float`)
are modelled by structurally recursive functions over the character list of
a string, so that every store operation evaluates by `decide`.
-/

/-- Python `str.strip()`: drop leading and trailing whitespace. -/
def pyStripChars (cs : List Char) : List Char :=
  ((cs.dropWhile Char.isWhitespace).reverse.dropWhile Char.isWhitespace).reverse

/-- The numeric value of a decimal digit character, `none` otherwise. -/
def digitVal? (c : Char) : Option ℕ :=
  if '0' ≤ c ∧ c ≤ '9' then some (c.toNat - 48) else none

/-- Accumulate a decimal numeral left to right. -/
def natOfDigitsAux : List Char → ℕ → Option ℕ
  | [], acc => some acc
  | c :: cs, acc =>
      match digitVal? c with
      | none => none
      | some d => natOfDigitsAux cs (acc * 10 + d)

/-- A non-empty run of decimal digits as a natural number. -/
def natOfDigits? : List Char → Option ℕ
  | [] => none
  | cs => natOfDigitsAux cs 0

/-- An optional sign followed by a non-empty run of decimal digits. -/
def intOfChars? : List Char → Option ℤ
  | [] => none
  | '-' :: cs => (natOfDigits? cs).map fun n => -(n : ℤ)
  | '+' :: cs => (natOfDigits? cs).map fun n => (n : ℤ)
  | cs => (natOfDigits? cs).map fun n => (n : ℤ)

/-- Python `int(s)` on the decimal strings used by the calibration files;
`none` models the `ValueError` on a non-integer string. -/
def parseInt? (s : String) : Option ℤ :=
  intOfChars? (pyStripChars s.toList)

/-- Python `float(s)` on the plain decimal literals used by the calibration
files (an optional sign, digits, an optional non-empty fractional part);
`none` models the `ValueError` on a malformed string. -/
def parseFloat? (s : String) : Option ℚ :=
  match (pyStripChars s.toList).splitOn '.' with
  | [w] => (intOfChars? w).map fun i => (i : ℚ)
  | [w, f] =>
      match intOfChars? w, natOfDigits? f with
      | some i, some n =>
          let scale : ℤ := (10 : ℤ) ^ f.length
          let num : ℤ := if w.headD ' ' = '-' then i * scale - n else i * scale + n
          some (Rat.divInt num scale)
      | _, _ => none
  | _ => none

/-- A Python dictionary with string keys and string values, as used for the
class-level calibration dictionaries `ball_values`, `goal_values` and
`tape_values`.  Assignment overwrites an existing key in place and otherwise
appends, preserving insertion order. -/
abbrev StrDict := List (String × String)

/-- Python `d[k] = v` on a string-keyed dictionary. -/
def dictInsert : StrDict → String → String → StrDict
  | [], k, v => [(k, v)]
  | (k', v') :: rest, k, v =>
      if k' = k then (k, v) :: rest else (k', v') :: dictInsert rest k v

/-- Python `d[k]`: `some` value, or `none` for a `KeyError`. -/
def dictGet : StrDict → String → Option String
  | [], _ => none
  | (k', v') :: rest, k => if k' = k then some v' else dictGet rest k

/-- `int(values[k])`: look a key up and convert it, `none` on a `KeyError`
or a `ValueError`. -/
def parseIntKey (d : StrDict) (k : String) : Option ℤ :=
  (dictGet d k).bind parseInt?

/-- `float(values[k])`: look a key up and convert it, `none` on a `KeyError`
or a `ValueError`. -/
def parseFloatKey (d : StrDict) (k : String) : Option ℚ :=
  (dictGet d k).bind parseFloat?

/-- The class-level calibration state of `VisionLibrary`: the three
per-target-class dictionaries filled by `read_vision_file`. -/
structure VisionStore where
  ball_values : StrDict
  goal_values : StrDict
  tape_values : StrDict
deriving DecidableEq

/-- The store as the class declares it: three empty dictionaries. -/
def emptyVisionStore : VisionStore :=
  { ball_values := [], goal_values := [], tape_values := [] }

/-- One iteration of the line loop of `read_vision_file`, carrying the
current `value_section` and the store.  A line whose first comma-separated
field upper-cases to a section keyword opens that section; an empty first
field closes it; any other line inside an open section is stored as
`KEY,VALUE` with the key upper-cased.  Reading `split_line[1]` on a line
with no comma inside an open section raises an `IndexError`, modelled as
`none`. -/
def processVisionLine (sect : String) (store : VisionStore) (line : String) :
    Option (String × VisionStore) :=
  let split_line := (pyStripChars line.toList).splitOn ','
  let firstRaw := split_line.headD []
  let first : String := (firstRaw.map Char.toUpper).asString
  if first = "BALL:" then some ("BALL", store)
  else if first = "GOALTARGET:" then some ("GOALTARGET", store)
  else if first = "VISIONTAPE:" then some ("VISIONTAPE", store)
  else if firstRaw = [] then some ("", store)
  else
    match sect with
    | "BALL" =>
        (split_line.get? 1).map fun v =>
          (sect, { store with ball_values := dictInsert store.ball_values first v.asString })
    | "GOALTARGET" =>
        (split_line.get? 1).map fun v =>
          (sect, { store with goal_values := dictInsert store.goal_values first v.asString })
    | "VISIONTAPE" =>
        (split_line.get? 1).map fun v =>
          (sect, { store with tape_values := dictInsert store.tape_values first v.asString })
    | _ => some (sect, store)

/-- `VisionLibrary.read_vision_file`.  The input is `none` when opening the
file raises `FileNotFoundError` (the one exception the method catches, in
which case it returns `False` with the store untouched) and `some lines`
otherwise.  The overall `none` models an uncaught exception escaping the
method (an `IndexError` from a comma-less line inside an open section);
otherwise the method returns `True` together with the updated store. -/
def read_vision_file (file : Option (List String)) (store : VisionStore) :
    Option (Bool × VisionStore) :=
  match file with
  | none => some (false, store)
  | some value_list =>
      (value_list.foldl
        (fun acc line => acc.bind fun sv => processVisionLine sv.1 sv.2 line)
        (some ("", store))).map
        fun sv => (true, sv.2)

/-- Python `math.radians`. -/
noncomputable def radiansOf (d : ℝ) : ℝ := d * (Real.pi / 180)

/-- Python `math.degrees`. -/
noncomputable def degreesOf (r : ℝ) : ℝ := r * (180 / Real.pi)

/-- A contour as `detect_game_balls` consumes it: the backend measurements
`cv.contourArea(contour)` and `cv.minEnclosingCircle(contour)` (centre
`(x, y)` and fitted `radius`). -/
structure BallContour where
  area : ℝ
  x : ℝ
  y : ℝ
  radius : ℝ

/-- One entry of the `ballData` list built by `detect_game_balls`. -/
structure BallDetection where
  x : ℝ
  y : ℝ
  radius : ℝ
  distance : ℝ
  angle : ℝ
  offset : ℝ
  percent : ℝ

/-- The per-contour metric computation of `detect_game_balls` (the body of
the `if radius > int(...['MINRADIUS'])` branch), given the parsed known
physical `RADIUS` value. -/
noncomputable def mkBallDetection (knownRadius : ℚ) (cameraWidth cameraHeight cameraFOV : ℝ)
    (c : BallContour) : BallDetection :=
  let inches_per_pixel := (knownRadius : ℝ) / c.radius
  let distanceToBall := inches_per_pixel * (cameraWidth / (2 * Real.tan (radiansOf cameraFOV)))
  let offsetInInches := inches_per_pixel * (c.x - cameraWidth / 2)
  let angleToBall := degreesOf (Real.arctan (offsetInInches / distanceToBall))
  let screenPercent := Real.pi * c.radius * c.radius / (cameraWidth * cameraHeight)
  let ballOffset := -offsetInInches
  { x := c.x, y := c.y, radius := c.radius, distance := distanceToBall,
    angle := angleToBall, offset := ballOffset, percent := screenPercent }

/-- `sorted(ballContours, key=cv.contourArea, reverse=True)`: a stable sort
into descending area order (Python's `sorted` is stable; a stable insertion
sort into the relation `b.area ≤ a.area` realizes exactly that order). -/
noncomputable def sortedByAreaDesc (contours : List BallContour) : List BallContour :=
  contours.insertionSort fun a b => b.area ≤ a.area

/-- The contour loop of `detect_game_balls` over the already-sorted contour
list.  Each iteration re-reads `MINRADIUS` (and, in the accepted branch,
`RADIUS`) from the ball dictionary, exactly as the source does inside the
loop; a missing or non-numeric key raises there, modelled as `none`.  A
contour whose fitted radius is not strictly greater than `MINRADIUS` breaks
the loop. -/
noncomputable def ballScan (ball_values : StrDict) (cameraWidth cameraHeight cameraFOV : ℝ) :
    List BallContour → Option (ℕ × List BallDetection)
  | [] => some (0, [])
  | contour :: rest =>
      match parseIntKey ball_values "MINRADIUS" with
      | none => none
      | some minRadius =>
          if contour.radius > (minRadius : ℝ) then
            match parseFloatKey ball_values "RADIUS" with
            | none => none
            | some knownRadius =>
                match ballScan ball_values cameraWidth cameraHeight cameraFOV rest with
                | none => none
                | some (ballsFound, ballData) =>
                    some (ballsFound + 1,
                      mkBallDetection knownRadius cameraWidth cameraHeight cameraFOV contour
                        :: ballData)
          else some (0, [])

/-- The six `int(...)` reads of the HSV bounds, in source order
`HMIN, HMAX, SMIN, SMAX, VMIN, VMAX`; the first missing or non-integer key
raises, modelled as `none`. -/
def parseHSV6 (values : StrDict) : Option (ℤ × ℤ × ℤ × ℤ × ℤ × ℤ) :=
  match parseIntKey values "HMIN" with
  | none => none
  | some hMin =>
  match parseIntKey values "HMAX" with
  | none => none
  | some hMax =>
  match parseIntKey values "SMIN" with
  | none => none
  | some sMin =>
  match parseIntKey values "SMAX" with
  | none => none
  | some sMax =>
  match parseIntKey values "VMIN" with
  | none => none
  | some vMin =>
  match parseIntKey values "VMAX" with
  | none => none
  | some vMax => some (hMin, hMax, sMin, sMax, vMin, vMax)

/-- `VisionLibrary.detect_game_balls`.  The frame itself is consumed by the
external segmentation backend; the function is therefore parameterized by
the contour measurements the backend returns for the frame.  `none` models
an uncaught exception (a missing or non-numeric calibration key). -/
noncomputable def detect_game_balls (ball_values : StrDict)
    (cameraWidth cameraHeight cameraFOV : ℝ) (ballContours : List BallContour) :
    Option (ℕ × List BallDetection) :=
  match parseHSV6 ball_values with
  | none => none
  | some _ =>
      if 0 < ballContours.length then
        ballScan ball_values cameraWidth cameraHeight cameraFOV (sortedByAreaDesc ballContours)
      else some (0, [])

/-- The rotated rectangle `cv.minAreaRect` fits to a contour:
`((x, y), (h, w), angle)`; the library reads only `rect[2]`, the angle. -/
structure RotRect where
  cx : ℝ
  cy : ℝ
  dim1 : ℝ
  dim2 : ℝ
  angle : ℝ

/-- A contour as `detect_tape_rectangle` consumes it: the backend
measurements `cv.contourArea`, `cv.boundingRect` (`x, y, w, h`),
`cv.minAreaRect` and the integer box corners `np.int0(cv.boxPoints(rect))`. -/
structure TapeContour where
  area : ℝ
  bx : ℝ
  byy : ℝ
  bw : ℝ
  bh : ℝ
  rect : RotRect
  boxPts : List (ℤ × ℤ)

/-- The `tapeCameraValues` dictionary of `detect_tape_rectangle`. -/
structure TapeCameraValues where
  targetX : ℝ
  targetY : ℝ
  targetW : ℝ
  targetH : ℝ
  ipp : ℝ
  offset : ℝ

/-- The `tapeRealWorldValues` dictionary of `detect_tape_rectangle`. -/
structure TapeRealWorldValues where
  aspectRatio : ℝ
  centerOffset : ℝ
  straightDistance : ℝ
  tapeDistance : ℝ
  wallDistance : ℝ
  hAngle : ℝ
  vAngle : ℝ
  targetRotation : ℝ
  botAngle : ℝ
  apparentWidth : ℝ
  vertOffset : ℝ

/-- The full return value of `detect_tape_rectangle`:
`(tapeCameraValues, tapeRealWorldValues, foundTape, targetLock, rect, box)`. -/
structure TapeOutput where
  camera : TapeCameraValues
  world : TapeRealWorldValues
  foundTape : Bool
  targetLock : Bool
  rect : Option RotRect
  box : Option (List (ℤ × ℤ))

/-- The output of `detect_tape_rectangle` when every local keeps its
initialization: position/size fields at the sentinel 1000, angles and
offsets at 0, flags false, `rect` and `box` at `None`. -/
def defaultTapeOutput : TapeOutput where
  camera := { targetX := 1000, targetY := 1000, targetW := 1000, targetH := 1000,
              ipp := 0, offset := 0 }
  world := { aspectRatio := 0, centerOffset := 0, straightDistance := 1000,
             tapeDistance := 1000, wallDistance := 1000, hAngle := 0, vAngle := 0,
             targetRotation := 0, botAngle := 0, apparentWidth := 0, vertOffset := 0 }
  foundTape := false
  targetLock := false
  rect := none
  box := none

/-- Python `max(contours, key=cv.contourArea)` on a non-empty list: keep the
earliest contour whose area is maximal. -/
noncomputable def pyMaxByArea (c : TapeContour) (cs : List TapeContour) : TapeContour :=
  cs.foldl (fun acc x => if x.area > acc.area then x else acc) c

/-- The found branch of `detect_tape_rectangle` (the largest contour passed
the `MINAREA` test): bounding box, rotated-rectangle angle, and the
real-world pass, given the parsed `TAPEWIDTH`, `GOALHEIGHT` and
`LOCKTOLERANCE` values. -/
noncomputable def tapeFoundOutput (tapeWidth goalHeightVal lockTolerance : ℚ)
    (imageWidth imageHeight cameraFocalLength cameraMountHeight : ℝ)
    (largestContour : TapeContour) : TapeOutput :=
  let targetX := largestContour.bx
  let targetY := largestContour.byy
  let targetW := largestContour.bw
  let targetH := largestContour.bh
  let aspectRatio := targetW / targetH
  let angle := largestContour.rect.angle
  let cameraAngle := if |angle| < 45 then |angle| else 90 - |angle|
  let botAngle := 2 * cameraAngle
  let apparentTapeWidth := (tapeWidth : ℝ) * Real.cos (radiansOf botAngle)
  let inchesPerPixel := apparentTapeWidth / targetW
  let horizOffsetPixels := (targetX + targetW / 2) - imageWidth / 2
  let horizOffsetInInches := inchesPerPixel * horizOffsetPixels
  let vertOffsetPixels := imageHeight / 2 - (targetY - targetH / 2)
  let vertOffsetInInches := inchesPerPixel * vertOffsetPixels
  let centerOffset := -horizOffsetInInches
  let straightLineDistance := apparentTapeWidth * cameraFocalLength / targetW
  let distanceArg := straightLineDistance ^ 2 - ((goalHeightVal : ℝ) - cameraMountHeight) ^ 2
  let distanceToTape := if distanceArg > 0 then Real.sqrt distanceArg else 1000
  let distanceToWall := distanceToTape / Real.cos (radiansOf botAngle)
  let horizAngleToTape := degreesOf (Real.arctan (horizOffsetInInches / distanceToTape))
  let vertAngleToTape := degreesOf (Real.arctan (vertOffsetInInches / distanceToTape))
  let targetLock := if |horizOffsetInInches| ≤ (lockTolerance : ℝ) then true else false
  { camera := { targetX := targetX, targetY := targetY, targetW := targetW, targetH := targetH,
                ipp := inchesPerPixel, offset := horizOffsetPixels }
    world := { aspectRatio := aspectRatio, centerOffset := centerOffset,
               straightDistance := straightLineDistance, tapeDistance := distanceToTape,
               wallDistance := distanceToWall, hAngle := horizAngleToTape,
               vAngle := vertAngleToTape, targetRotation := cameraAngle,
               botAngle := botAngle, apparentWidth := apparentTapeWidth,
               vertOffset := vertOffsetInInches }
    foundTape := true
    targetLock := targetLock
    rect := some largestContour.rect
    box := some largestContour.boxPts }

/-- `VisionLibrary.detect_tape_rectangle`.  As for the balls, the function
is parameterized by the backend's contour measurements for the frame.
Calibration keys are read exactly where the source reads them: the six HSV
bounds up front, `MINAREA` only once a contour exists, and the three float
keys only in the found branch; a missing or non-numeric key raises there,
modelled as `none`.  `cameraFOV` and `cameraMountAngle` are accepted and
never used, as in the source. -/
noncomputable def detect_tape_rectangle (tape_values : StrDict)
    (imageWidth imageHeight cameraFOV cameraFocalLength cameraMountAngle cameraMountHeight : ℝ)
    (tapeContours : List TapeContour) : Option TapeOutput :=
  match parseHSV6 tape_values with
  | none => none
  | some _ =>
      match tapeContours with
      | [] => some defaultTapeOutput
      | c :: cs =>
          let largestContour := pyMaxByArea c cs
          match parseIntKey tape_values "MINAREA" with
          | none => none
          | some minArea =>
              if largestContour.area > (minArea : ℝ) then
                match parseFloatKey tape_values "TAPEWIDTH" with
                | none => none
                | some tapeWidth =>
                match parseFloatKey tape_values "GOALHEIGHT" with
                | none => none
                | some goalHeightVal =>
                match parseFloatKey tape_values "LOCKTOLERANCE" with
                | none => none
                | some lockTolerance =>
                    some (tapeFoundOutput tapeWidth goalHeightVal lockTolerance
                      imageWidth imageHeight cameraFocalLength cameraMountHeight largestContour)
              else some defaultTapeOutput

/-- A call of a detection method as a transition on the class-level
calibration state: `detect_game_balls` only ever reads
`VisionLibrary.ball_values` (there is no assignment to any of the three
class dictionaries in its body), so the call returns its result together
with the store it leaves behind. -/
noncomputable def detect_game_balls_call (store : VisionStore)
    (cameraWidth cameraHeight cameraFOV : ℝ) (ballContours : List BallContour) :
    Option (ℕ × List BallDetection) × VisionStore :=
  (detect_game_balls store.ball_values cameraWidth cameraHeight cameraFOV ballContours, store)

/-- A call of `detect_tape_rectangle` as a transition on the class-level
calibration state: the body only ever reads `VisionLibrary.tape_values` and
assigns to none of the three class dictionaries. -/
noncomputable def detect_tape_rectangle_call (store : VisionStore)
    (imageWidth imageHeight cameraFOV cameraFocalLength cameraMountAngle cameraMountHeight : ℝ)
    (tapeContours : List TapeContour) : Option TapeOutput × VisionStore :=
  (detect_tape_rectangle store.tape_values imageWidth imageHeight cameraFOV cameraFocalLength
    cameraMountAngle cameraMountHeight tapeContours, store)

/-- The mutable state of an `FRCNavx` instance that the background `update`
loop and its readers touch. -/
structure NavxState where
  stopped : Bool
  angle : ℚ
  yaw : ℚ
  pitch : ℚ
  time : List ℤ
  date : List ℤ
deriving DecidableEq

/-- One sensor sample, as delivered by the external VMXPi board:
`GetAngle()`, `GetRTCTime()` and `GetRTCDate()`. -/
structure NavxReading where
  angle : ℚ
  time : List ℤ
  date : List ℤ

/-- Python `round(x, 2)` as the `update` loop applies it to the angle. -/
def roundTo2 (q : ℚ) : ℚ :=
  Rat.divInt (round (q * 100)) 100

/-- `FRCNavx.stop_navx`: set the stop flag. -/
def stop_navx (s : NavxState) : NavxState :=
  { s with stopped := true }

/-- One iteration of the `while True` loop of `FRCNavx.update`: if the stop
flag is set the loop returns (the state is left untouched); otherwise the
angle, time and date are refreshed from the sensor reading. -/
def navxLoopIter (r : NavxReading) (s : NavxState) : NavxState :=
  if s.stopped then s
  else { s with angle := roundTo2 r.angle, time := r.time, date := r.date }

/-- `FRCNavx.update` run for a bounded number of loop iterations against a
stream of sensor readings (iteration `n` consumes reading `env n`). -/
def navxRun (env : ℕ → NavxReading) : ℕ → NavxState → NavxState
  | 0, s => s
  | n + 1, s => navxRun env n (navxLoopIter (env n) s)

/-! ## Helper lemmas -/

/-- If any of the six HSV reads fails, the combined read fails. -/
lemma parseHSV6_eq_none (v : StrDict)
    (h : parseIntKey v "HMIN" = none ∨ parseIntKey v "HMAX" = none ∨
      parseIntKey v "SMIN" = none ∨ parseIntKey v "SMAX" = none ∨
      parseIntKey v "VMIN" = none ∨ parseIntKey v "VMAX" = none) :
    parseHSV6 v = none := by
  unfold parseHSV6
  rcases h1 : parseIntKey v "HMIN" with _ | a <;>
    rcases h2 : parseIntKey v "HMAX" with _ | b <;>
    rcases h3 : parseIntKey v "SMIN" with _ | c <;>
    rcases h4 : parseIntKey v "SMAX" with _ | d <;>
    rcases h5 : parseIntKey v "VMIN" with _ | e <;>
    rcases h6 : parseIntKey v "VMAX" with _ | f <;>
    simp_all

/-- The found branch of `detect_tape_rectangle`, in closed form: with every
needed calibration key readable and the largest contour's area above
`MINAREA`, the call returns the found output for the largest contour. -/
lemma detect_tape_found (tape_values : StrDict)
    (iw ih fov fl ma mh : ℝ) (c : TapeContour) (cs : List TapeContour)
    (hsv : ℤ × ℤ × ℤ × ℤ × ℤ × ℤ) (minArea : ℤ) (tw gh lt : ℚ)
    (h6 : parseHSV6 tape_values = some hsv)
    (hmA : parseIntKey tape_values "MINAREA" = some minArea)
    (harea : (pyMaxByArea c cs).area > (minArea : ℝ))
    (htw : parseFloatKey tape_values "TAPEWIDTH" = some tw)
    (hgh : parseFloatKey tape_values "GOALHEIGHT" = some gh)
    (hlt : parseFloatKey tape_values "LOCKTOLERANCE" = some lt) :
    detect_tape_rectangle tape_values iw ih fov fl ma mh (c :: cs) =
      some (tapeFoundOutput tw gh lt iw ih fl mh (pyMaxByArea c cs)) := by
  simp [detect_tape_rectangle, h6, hmA, harea, htw, hgh, hlt]

/-- A complete, well-formed ball calibration section, for concrete
instantiations. -/
def sampleBallValues : StrDict :=
  [("HMIN", "0"), ("HMAX", "255"), ("SMIN", "0"), ("SMAX", "255"),
   ("VMIN", "0"), ("VMAX", "255"), ("MINRADIUS", "4"), ("RADIUS", "10")]

/-- A complete, well-formed tape calibration section, for concrete
instantiations. -/
def sampleTapeValues : StrDict :=
  [("HMIN", "50"), ("HMAX", "100"), ("SMIN", "0"), ("SMAX", "255"),
   ("VMIN", "0"), ("VMAX", "255"), ("MINAREA", "10"), ("TAPEWIDTH", "2"),
   ("GOALHEIGHT", "10"), ("LOCKTOLERANCE", "1")]

/-- A tape contour with rotated-rectangle angle 0, bounding box
`(0, 0, 2, 1)` and a given area, for concrete instantiations. -/
def flatTapeContour (a : ℝ) : TapeContour :=
  { area := a, bx := 0, byy := 0, bw := 2, bh := 1,
    rect := { cx := 1, cy := 0, dim1 := 1, dim2 := 2, angle := 0 }, boxPts := [] }

/-! ## Claims -/

/-- C4: if the calibration source file does not exist (`FileNotFoundError`
is raised by `open` before any line is processed), `read_vision_file`
returns `False` — the load reports an error — and the calibration store is
exactly what it was: no key of any section is stored by that load. -/
theorem read_vision_file_missing_file (store : VisionStore) :
    read_vision_file none store = some (false, store) :=
  rfl

/-- C8: neither `detect_game_balls` nor `detect_tape_rectangle` modifies
the calibration store: viewed as transitions on the class-level state, both
calls leave all three calibration dictionaries exactly as they found
them. -/
theorem detection_preserves_store :
    (∀ (store : VisionStore) (cw ch fov : ℝ) (cs : List BallContour),
      (detect_game_balls_call store cw ch fov cs).2 = store) ∧
    (∀ (store : VisionStore) (iw ih fov fl ma mh : ℝ) (ts : List TapeContour),
      (detect_tape_rectangle_call store iw ih fov fl ma mh ts).2 = store) :=
  ⟨fun _ _ _ _ _ => rfl, fun _ _ _ _ _ _ _ _ => rfl⟩

/-- C9: once `stop_navx` has set the stop flag, the `update` loop returns
at its next stop-flag check: however many further iterations are attempted,
and whatever the sensor reads, the state — in particular `angle`, `time`
and `date` — never changes again; `stop_navx` itself touches nothing but
the flag and is idempotent. -/
theorem stop_navx_halts_update_and_is_idempotent :
    (∀ (env : ℕ → NavxReading) (n : ℕ) (s : NavxState),
      navxRun env n (stop_navx s) = stop_navx s) ∧
    (∀ s : NavxState, stop_navx (stop_navx s) = stop_navx s) ∧
    (∀ s : NavxState, (stop_navx s).angle = s.angle ∧ (stop_navx s).time = s.time ∧
      (stop_navx s).date = s.date) := by
  refine ⟨fun env n s => ?_, fun s => rfl, fun s => ⟨rfl, rfl, rfl⟩⟩
  induction n with
  | zero => rfl
  | succ n ih => simpa [navxRun, navxLoopIter, stop_navx] using ih

/-- C2 (amended): the load performs no schema validation: whenever the file
exists and no line raises, `read_vision_file` reports success, whatever
keys are present; a missing or non-integer HSV bound key instead fails the
detection call that reads it — `detect_game_balls` for the ball section,
`detect_tape_rectangle` for the tape section — which returns no result. -/
theorem hsv_keys_checked_at_detection_not_load :
    (∀ (lines : List String) (store : VisionStore) (b : Bool) (store' : VisionStore),
      read_vision_file (some lines) store = some (b, store') → b = true) ∧
    (∀ (ball_values : StrDict) (cw ch fov : ℝ) (cs : List BallContour),
      (parseIntKey ball_values "HMIN" = none ∨ parseIntKey ball_values "HMAX" = none ∨
        parseIntKey ball_values "SMIN" = none ∨ parseIntKey ball_values "SMAX" = none ∨
        parseIntKey ball_values "VMIN" = none ∨ parseIntKey ball_values "VMAX" = none) →
      detect_game_balls ball_values cw ch fov cs = none) ∧
    (∀ (tape_values : StrDict) (iw ih fov fl ma mh : ℝ) (ts : List TapeContour),
      (parseIntKey tape_values "HMIN" = none ∨ parseIntKey tape_values "HMAX" = none ∨
        parseIntKey tape_values "SMIN" = none ∨ parseIntKey tape_values "SMAX" = none ∨
        parseIntKey tape_values "VMIN" = none ∨ parseIntKey tape_values "VMAX" = none) →
      detect_tape_rectangle tape_values iw ih fov fl ma mh ts = none) := by
  refine ⟨fun lines store b store' h => ?_, fun bv cw ch fov cs h => ?_,
    fun tv iw ih fov fl ma mh ts h => ?_⟩
  · unfold read_vision_file at h
    rcases hf : (lines.foldl
        (fun acc line => acc.bind fun sv => processVisionLine sv.1 sv.2 line)
        (some ("", store))) with _ | sv <;> simp [hf] at h
    exact h.1
  · simp [detect_game_balls, parseHSV6_eq_none _ h]
  · simp [detect_tape_rectangle, parseHSV6_eq_none _ h]

/-- C2 counterexample: the claim says a load whose ball section lacks an
HSV bound key fails at load time; on the code, loading a source whose BALL
section has only `HMAX` succeeds (`True`, the key stored), and it is the
later `detect_game_balls` call that fails. -/
theorem load_accepts_missing_hsv_key :
    read_vision_file (some ["BALL:", "HMAX,255"]) emptyVisionStore =
      some (true, { emptyVisionStore with ball_values := [("HMAX", "255")] }) ∧
    detect_game_balls [("HMAX", "255")] 320 240 60 [] = none := by
  constructor
  · decide
  · simp [detect_game_balls, show parseHSV6 [("HMAX", "255")] = none by decide]

/-- C10: when no contour is found, or the largest contour's area does not
exceed `MINAREA`, `detect_tape_rectangle` returns the all-defaults output,
whose rotated-rectangle descriptor and box-point array are `None` rather
than numeric sentinels. -/
theorem tape_rect_and_box_none_when_not_found (tape_values : StrDict)
    (iw ih fov fl ma mh : ℝ) (tapeContours : List TapeContour)
    (hsv : ℤ × ℤ × ℤ × ℤ × ℤ × ℤ)
    (h6 : parseHSV6 tape_values = some hsv)
    (h : tapeContours = [] ∨
      ∃ (c : TapeContour) (cs : List TapeContour) (minArea : ℤ),
        tapeContours = c :: cs ∧ parseIntKey tape_values "MINAREA" = some minArea ∧
        ¬ (pyMaxByArea c cs).area > (minArea : ℝ)) :
    detect_tape_rectangle tape_values iw ih fov fl ma mh tapeContours =
      some defaultTapeOutput ∧
    defaultTapeOutput.rect = none ∧ defaultTapeOutput.box = none := by
  refine ⟨?_, rfl, rfl⟩
  rcases h with h | ⟨c, cs, minArea, hcons, hmA, harea⟩
  · subst h; simp [detect_tape_rectangle, h6]
  · subst hcons; simp [detect_tape_rectangle, h6, hmA, harea]

/-- C10 witness at a concrete input: an empty contour list with a complete
tape calibration. -/
theorem tape_rect_and_box_none_witness :
    detect_tape_rectangle
      [("HMIN", "50"), ("HMAX", "100"), ("SMIN", "0"), ("SMAX", "255"),
       ("VMIN", "0"), ("VMAX", "255"), ("MINAREA", "10"), ("TAPEWIDTH", "2"),
       ("GOALHEIGHT", "10"), ("LOCKTOLERANCE", "1")]
      320 240 60 333 15 24 [] = some defaultTapeOutput ∧
    defaultTapeOutput.rect = none ∧ defaultTapeOutput.box = none :=
  tape_rect_and_box_none_when_not_found _ 320 240 60 333 15 24 []
    (50, 100, 0, 255, 0, 255) (by decide) (Or.inl rfl)

/-- C7 (amended): `detect_tape_rectangle` evaluates only the largest-area
contour — the call on the full contour list returns exactly what the call
on that single contour returns — and `foundTape` is true iff that contour's
area is strictly greater than the calibrated `MINAREA`; when the area is at
or below `MINAREA`, the whole output keeps its defaults (sentinel 1000 for
the camera-space position/size fields, 0 for the offset fields). -/
theorem tape_found_iff_area_above_min (tape_values : StrDict)
    (iw ih fov fl ma mh : ℝ) (c : TapeContour) (cs : List TapeContour)
    (hsv : ℤ × ℤ × ℤ × ℤ × ℤ × ℤ) (minArea : ℤ) (out : TapeOutput)
    (h6 : parseHSV6 tape_values = some hsv)
    (hmA : parseIntKey tape_values "MINAREA" = some minArea)
    (hout : detect_tape_rectangle tape_values iw ih fov fl ma mh (c :: cs) = some out) :
    (out.foundTape = true ↔ (pyMaxByArea c cs).area > (minArea : ℝ)) ∧
    (¬ (pyMaxByArea c cs).area > (minArea : ℝ) → out = defaultTapeOutput) ∧
    detect_tape_rectangle tape_values iw ih fov fl ma mh (c :: cs) =
      detect_tape_rectangle tape_values iw ih fov fl ma mh [pyMaxByArea c cs] := by
  have h3 : detect_tape_rectangle tape_values iw ih fov fl ma mh (c :: cs) =
      detect_tape_rectangle tape_values iw ih fov fl ma mh [pyMaxByArea c cs] := by
    simp [detect_tape_rectangle, h6, hmA, pyMaxByArea]
  by_cases harea : (pyMaxByArea c cs).area > (minArea : ℝ)
  · refine ⟨?_, fun hn => absurd harea hn, h3⟩
    simp only [detect_tape_rectangle, h6, hmA, harea, if_true, if_pos] at hout
    rcases htw : parseFloatKey tape_values "TAPEWIDTH" with _ | tw <;> rw [htw] at hout
    · exact absurd hout (by simp)
    rcases hgh : parseFloatKey tape_values "GOALHEIGHT" with _ | gh <;> rw [hgh] at hout
    · exact absurd hout (by simp)
    rcases hlt : parseFloatKey tape_values "LOCKTOLERANCE" with _ | lt <;> rw [hlt] at hout
    · exact absurd hout (by simp)
    have : out = tapeFoundOutput tw gh lt iw ih fl mh (pyMaxByArea c cs) :=
      (Option.some.inj hout).symm
    subst this
    simpa [tapeFoundOutput] using harea
  · have hdef : detect_tape_rectangle tape_values iw ih fov fl ma mh (c :: cs) =
        some defaultTapeOutput := by
      simp [detect_tape_rectangle, h6, hmA, harea]
    rw [hdef] at hout
    have : out = defaultTapeOutput := (Option.some.inj hout).symm
    subst this
    exact ⟨by simpa [defaultTapeOutput] using harea, fun _ => rfl, h3⟩

/-- C7 counterexample: with `MINAREA = 10` and a single contour whose area
is exactly 10 — an area that is not below the minimum — the code reports no
target (`foundTape = false`, everything at its defaults), where the claim
as stated requires `foundTape = true`. -/
theorem tape_found_boundary_counterexample :
    detect_tape_rectangle sampleTapeValues 320 240 60 333 15 24
      [flatTapeContour 10] = some defaultTapeOutput ∧
    defaultTapeOutput.foundTape = false := by
  refine ⟨?_, rfl⟩
  have h6 : parseHSV6 sampleTapeValues = some (50, 100, 0, 255, 0, 255) := by decide
  have hmA : parseIntKey sampleTapeValues "MINAREA" = some 10 := by decide
  have harea : ¬ (10 : ℝ) < (pyMaxByArea (flatTapeContour 10) []).area := by
    simp [pyMaxByArea, flatTapeContour]
  simp [detect_tape_rectangle, h6, hmA, harea]

/-- C7 witness at a concrete input: a single contour with area 50 against
`MINAREA = 10` satisfies every hypothesis of the theorem. -/
theorem tape_found_iff_area_above_min_witness :
    ((tapeFoundOutput 2 10 1 320 240 333 24
        (pyMaxByArea (flatTapeContour 50) [])).foundTape = true ↔
      (pyMaxByArea (flatTapeContour 50) []).area > ((10 : ℤ) : ℝ)) ∧
    (¬ (pyMaxByArea (flatTapeContour 50) []).area > ((10 : ℤ) : ℝ) →
      tapeFoundOutput 2 10 1 320 240 333 24 (pyMaxByArea (flatTapeContour 50) []) =
        defaultTapeOutput) ∧
    detect_tape_rectangle sampleTapeValues 320 240 60 333 15 24 [flatTapeContour 50] =
      detect_tape_rectangle sampleTapeValues 320 240 60 333 15 24
        [pyMaxByArea (flatTapeContour 50) []] :=
  tape_found_iff_area_above_min sampleTapeValues 320 240 60 333 15 24
    (flatTapeContour 50) [] (50, 100, 0, 255, 0, 255) 10 _ (by decide) (by decide)
    (detect_tape_found sampleTapeValues 320 240 60 333 15 24 (flatTapeContour 50) []
      (50, 100, 0, 255, 0, 255) 10 2 10 1 (by decide) (by decide)
      (by norm_num [pyMaxByArea, flatTapeContour]) (by decide) (by decide) (by decide))

/-- The shape of the ground-distance computation: keep the sentinel 1000
unless the argument is strictly positive, in which case take the root. -/
lemma sentinelSqrt_spec (A : ℝ) :
    (¬ 0 < A → (if A > 0 then Real.sqrt A else 1000) = 1000) ∧
    ((if A > 0 then Real.sqrt A else 1000) = Real.sqrt A ↔ 0 < A) := by
  split_ifs with hd
  · exact ⟨fun hn => absurd hd hn, by simp [hd]⟩
  · have hz : Real.sqrt A = 0 := Real.sqrt_eq_zero'.mpr (not_lt.mp hd)
    refine ⟨fun _ => rfl, ?_⟩
    rw [hz]
    constructor
    · intro h1000; norm_num at h1000
    · intro hpos; exact absurd hpos hd

/-- The shape of the lock decision: the flag reads true exactly when the
negated offset is within tolerance in absolute value. -/
lemma lockFlag_spec (x tol : ℝ) :
    (if |x| ≤ tol then true else false) = true ↔ |(-x)| ≤ tol := by
  rw [abs_neg]
  split_ifs with h <;> simpa using h

/-- C3: when a qualifying contour is found, the call completes without an
exception, and the returned `TapeDistance` is the square root of
`straightLineDistance² - (GOALHEIGHT - cameraMountHeight)²` exactly when
that argument is strictly positive; otherwise it keeps the sentinel
1000. -/
theorem tape_distance_sqrt_iff_arg_positive (tape_values : StrDict)
    (iw ih fov fl ma mh : ℝ) (c : TapeContour) (cs : List TapeContour)
    (hsv : ℤ × ℤ × ℤ × ℤ × ℤ × ℤ) (minArea : ℤ) (tw gh lt : ℚ)
    (h6 : parseHSV6 tape_values = some hsv)
    (hmA : parseIntKey tape_values "MINAREA" = some minArea)
    (harea : (pyMaxByArea c cs).area > (minArea : ℝ))
    (htw : parseFloatKey tape_values "TAPEWIDTH" = some tw)
    (hgh : parseFloatKey tape_values "GOALHEIGHT" = some gh)
    (hlt : parseFloatKey tape_values "LOCKTOLERANCE" = some lt) :
    ∃ out : TapeOutput,
      detect_tape_rectangle tape_values iw ih fov fl ma mh (c :: cs) = some out ∧
      out.foundTape = true ∧
      (¬ 0 < out.world.straightDistance ^ 2 - ((gh : ℝ) - mh) ^ 2 →
        out.world.tapeDistance = 1000) ∧
      (out.world.tapeDistance =
          Real.sqrt (out.world.straightDistance ^ 2 - ((gh : ℝ) - mh) ^ 2) ↔
        0 < out.world.straightDistance ^ 2 - ((gh : ℝ) - mh) ^ 2) := by
  refine ⟨tapeFoundOutput tw gh lt iw ih fl mh (pyMaxByArea c cs),
    detect_tape_found tape_values iw ih fov fl ma mh c cs hsv minArea tw gh lt
      h6 hmA harea htw hgh hlt, rfl, ?_⟩
  exact sentinelSqrt_spec _

/-- C3 witness at a concrete input: focal length 1 makes the straight-line
distance 2 against a goal-height difference of 10, so the distance argument
is negative and `TapeDistance` keeps the sentinel. -/
theorem tape_distance_sqrt_iff_witness :
    ∃ out : TapeOutput,
      detect_tape_rectangle sampleTapeValues 320 240 60 1 15 0
        [flatTapeContour 50] = some out ∧
      out.foundTape = true ∧
      (¬ 0 < out.world.straightDistance ^ 2 - (((10 : ℚ) : ℝ) - 0) ^ 2 →
        out.world.tapeDistance = 1000) ∧
      (out.world.tapeDistance =
          Real.sqrt (out.world.straightDistance ^ 2 - (((10 : ℚ) : ℝ) - 0) ^ 2) ↔
        0 < out.world.straightDistance ^ 2 - (((10 : ℚ) : ℝ) - 0) ^ 2) :=
  tape_distance_sqrt_iff_arg_positive sampleTapeValues 320 240 60 1 15 0
    (flatTapeContour 50) [] (50, 100, 0, 255, 0, 255) 10 2 10 1
    (by decide) (by decide) (by norm_num [pyMaxByArea, flatTapeContour])
    (by decide) (by decide) (by decide)

/-- C5: when a target is found, `targetLock` is true exactly when the
absolute horizontal offset in inches is at most the calibrated
`LOCKTOLERANCE` (the reported `CenterOffset` is the negation of that
offset, so its absolute value is the same); equality with the tolerance
locks, anything strictly larger does not. -/
theorem tape_lock_iff_offset_within_tolerance (tape_values : StrDict)
    (iw ih fov fl ma mh : ℝ) (c : TapeContour) (cs : List TapeContour)
    (hsv : ℤ × ℤ × ℤ × ℤ × ℤ × ℤ) (minArea : ℤ) (tw gh lt : ℚ)
    (h6 : parseHSV6 tape_values = some hsv)
    (hmA : parseIntKey tape_values "MINAREA" = some minArea)
    (harea : (pyMaxByArea c cs).area > (minArea : ℝ))
    (htw : parseFloatKey tape_values "TAPEWIDTH" = some tw)
    (hgh : parseFloatKey tape_values "GOALHEIGHT" = some gh)
    (hlt : parseFloatKey tape_values "LOCKTOLERANCE" = some lt) :
    ∃ out : TapeOutput,
      detect_tape_rectangle tape_values iw ih fov fl ma mh (c :: cs) = some out ∧
      out.foundTape = true ∧
      (out.targetLock = true ↔ |out.world.centerOffset| ≤ (lt : ℝ)) := by
  refine ⟨tapeFoundOutput tw gh lt iw ih fl mh (pyMaxByArea c cs),
    detect_tape_found tape_values iw ih fov fl ma mh c cs hsv minArea tw gh lt
      h6 hmA harea htw hgh hlt, rfl, ?_⟩
  exact lockFlag_spec _ _

/-- C5 witness at a concrete input: the bounding box is centred two pixels
left of the image centre of a 6-pixel-wide frame, giving a 2-inch offset
against tolerance 1. -/
theorem tape_lock_iff_offset_witness :
    ∃ out : TapeOutput,
      detect_tape_rectangle sampleTapeValues 6 240 60 1 15 0
        [flatTapeContour 50] = some out ∧
      out.foundTape = true ∧
      (out.targetLock = true ↔ |out.world.centerOffset| ≤ ((1 : ℚ) : ℝ)) :=
  tape_lock_iff_offset_within_tolerance sampleTapeValues 6 240 60 1 15 0
    (flatTapeContour 50) [] (50, 100, 0, 255, 0, 255) 10 2 10 1
    (by decide) (by decide) (by norm_num [pyMaxByArea, flatTapeContour])
    (by decide) (by decide) (by decide)

/-- C6: a single accepted contour whose fitted radius equals the calibrated
physical `RADIUS` and whose centre x sits at `cameraWidth / 2` yields one
detection with `distance = cameraWidth / (2 * tan(radians(cameraFOV)))`,
`angle = 0` and `offset = 0`. -/
theorem ball_at_center_with_known_radius (ball_values : StrDict)
    (cameraWidth cameraHeight cameraFOV : ℝ) (c : BallContour)
    (hsv : ℤ × ℤ × ℤ × ℤ × ℤ × ℤ) (minRadius : ℤ) (knownRadius : ℚ)
    (h6 : parseHSV6 ball_values = some hsv)
    (hm : parseIntKey ball_values "MINRADIUS" = some minRadius)
    (hr : parseFloatKey ball_values "RADIUS" = some knownRadius)
    (hacc : c.radius > (minRadius : ℝ))
    (hrad : c.radius = (knownRadius : ℝ))
    (hx : c.x = cameraWidth / 2)
    (hkR : (knownRadius : ℝ) ≠ 0) :
    detect_game_balls ball_values cameraWidth cameraHeight cameraFOV [c] =
      some (1, [mkBallDetection knownRadius cameraWidth cameraHeight cameraFOV c]) ∧
    (mkBallDetection knownRadius cameraWidth cameraHeight cameraFOV c).distance =
      cameraWidth / (2 * Real.tan (radiansOf cameraFOV)) ∧
    (mkBallDetection knownRadius cameraWidth cameraHeight cameraFOV c).angle = 0 ∧
    (mkBallDetection knownRadius cameraWidth cameraHeight cameraFOV c).offset = 0 := by
  have hs : sortedByAreaDesc [c] = [c] := rfl
  refine ⟨?_, ?_, ?_, ?_⟩
  · simp only [detect_game_balls, h6, List.length_cons, List.length_nil]
    rw [if_pos (by norm_num), hs]
    simp [ballScan, hm, hr, hacc]
  · simp only [mkBallDetection, hrad, div_self hkR, one_mul]
  · simp [mkBallDetection, hx, degreesOf]
  · simp [mkBallDetection, hx]

/-- C6 witness at a concrete input: radius 10 equals the calibrated
`RADIUS`, centred in a 320-pixel-wide frame. -/
theorem ball_at_center_witness :
    detect_game_balls sampleBallValues 320 240 60
      [{ area := 100, x := 160, y := 120, radius := 10 }] =
      some (1, [mkBallDetection 10 320 240 60
        { area := 100, x := 160, y := 120, radius := 10 }]) ∧
    (mkBallDetection 10 320 240 60
      { area := 100, x := 160, y := 120, radius := 10 }).distance =
      320 / (2 * Real.tan (radiansOf 60)) ∧
    (mkBallDetection 10 320 240 60
      { area := 100, x := 160, y := 120, radius := 10 }).angle = 0 ∧
    (mkBallDetection 10 320 240 60
      { area := 100, x := 160, y := 120, radius := 10 }).offset = 0 :=
  ball_at_center_with_known_radius sampleBallValues 320 240 60
    { area := 100, x := 160, y := 120, radius := 10 } (0, 255, 0, 255, 0, 255) 4 10
    (by decide) (by decide) (by decide) (by norm_num) (by norm_num) (by norm_num)
    (by norm_num)

/-- The contour loop in closed form: with both per-iteration keys readable,
the loop returns exactly the detections of the longest prefix of contours
whose radius exceeds `MINRADIUS`, in order, together with their count. -/
lemma ballScan_eq_takeWhile (ball_values : StrDict) (cw ch fov : ℝ)
    (minRadius : ℤ) (knownRadius : ℚ)
    (hm : parseIntKey ball_values "MINRADIUS" = some minRadius)
    (hr : parseFloatKey ball_values "RADIUS" = some knownRadius)
    (l : List BallContour) :
    ballScan ball_values cw ch fov l =
      some ((l.takeWhile fun c => decide ((minRadius : ℝ) < c.radius)).length,
        (l.takeWhile fun c => decide ((minRadius : ℝ) < c.radius)).map
          (mkBallDetection knownRadius cw ch fov)) := by
  induction l with
  | nil => simp [ballScan]
  | cons c l ih =>
      by_cases h : (minRadius : ℝ) < c.radius
      · simp [ballScan, hm, hr, h, ih]
      · simp [ballScan, hm, h]

/-- C1 (amended): `detect_game_balls` processes the contours in descending
area order (a stable descending sort of the input) and stops at the first
contour whose fitted radius is at or below the calibrated `MINRADIUS`:
exactly the contours strictly before that one — the longest sorted prefix
with radius strictly above the minimum — yield a `BallDetection`, and no
later contour contributes, whatever its radius. -/
theorem detect_balls_early_exit_on_min_radius (ball_values : StrDict)
    (cw ch fov : ℝ) (contours : List BallContour)
    (hsv : ℤ × ℤ × ℤ × ℤ × ℤ × ℤ) (minRadius : ℤ) (knownRadius : ℚ)
    (h6 : parseHSV6 ball_values = some hsv)
    (hm : parseIntKey ball_values "MINRADIUS" = some minRadius)
    (hr : parseFloatKey ball_values "RADIUS" = some knownRadius) :
    (sortedByAreaDesc contours).Perm contours ∧
    List.Sorted (fun a b : BallContour => b.area ≤ a.area) (sortedByAreaDesc contours) ∧
    detect_game_balls ball_values cw ch fov contours =
      some (((sortedByAreaDesc contours).takeWhile
          fun c => decide ((minRadius : ℝ) < c.radius)).length,
        ((sortedByAreaDesc contours).takeWhile
            fun c => decide ((minRadius : ℝ) < c.radius)).map
          (mkBallDetection knownRadius cw ch fov)) := by
  refine ⟨List.perm_insertionSort _ _, ?_, ?_⟩
  · haveI ht : IsTotal BallContour fun a b => b.area ≤ a.area :=
      ⟨fun a b => le_total b.area a.area⟩
    haveI htr : IsTrans BallContour fun a b => b.area ≤ a.area :=
      ⟨fun _ _ _ h1 h2 => le_trans h2 h1⟩
    exact List.sorted_insertionSort _ _
  · rcases hc : contours with _ | ⟨c, cs⟩
    · simp [detect_game_balls, h6, sortedByAreaDesc]
    · simp only [detect_game_balls, h6, List.length_cons]
      rw [if_pos (by norm_num)]
      exact ballScan_eq_takeWhile ball_values cw ch fov minRadius knownRadius hm hr _

/-- C1 counterexample: with `MINRADIUS = 4` and a single contour whose
fitted radius is exactly 4 — a radius that is not below the minimum — the
loop breaks immediately and returns no detection, where the claim as
stated requires this contour to yield one. -/
theorem detect_balls_boundary_counterexample :
    detect_game_balls sampleBallValues 320 240 60
      [{ area := 100, x := 160, y := 120, radius := 4 }] = some (0, []) ∧
    ¬ ((4 : ℝ) < 4) := by
  refine ⟨?_, by norm_num⟩
  have h6 : parseHSV6 sampleBallValues = some (0, 255, 0, 255, 0, 255) := by decide
  have hm : parseIntKey sampleBallValues "MINRADIUS" = some 4 := by decide
  have hs : sortedByAreaDesc [{ area := 100, x := 160, y := 120, radius := 4 : BallContour }] =
      [{ area := 100, x := 160, y := 120, radius := 4 }] := rfl
  simp only [detect_game_balls, h6, List.length_cons, List.length_nil]
  rw [if_pos (by norm_num), hs]
  have hacc : ¬ ({ area := 100, x := 160, y := 120, radius := 4 : BallContour }.radius >
      ((4 : ℤ) : ℝ)) := by norm_num
  simp [ballScan, hm, hacc]

/-- C1 witness at a concrete input: two contours given in ascending area
order, radii 2 and 5 against `MINRADIUS = 4`; the sort puts the radius-5
contour first and the scan stops at the radius-2 contour. -/
theorem detect_balls_early_exit_witness :
    (sortedByAreaDesc [{ area := 80, x := 10, y := 10, radius := 2 },
        { area := 100, x := 20, y := 20, radius := 5 }]).Perm
      [{ area := 80, x := 10, y := 10, radius := 2 },
        { area := 100, x := 20, y := 20, radius := 5 }] ∧
    List.Sorted (fun a b : BallContour => b.area ≤ a.area)
      (sortedByAreaDesc [{ area := 80, x := 10, y := 10, radius := 2 },
        { area := 100, x := 20, y := 20, radius := 5 }]) ∧
    detect_game_balls sampleBallValues 320 240 60
      [{ area := 80, x := 10, y := 10, radius := 2 },
        { area := 100, x := 20, y := 20, radius := 5 }] =
      some (((sortedByAreaDesc [{ area := 80, x := 10, y := 10, radius := 2 },
            { area := 100, x := 20, y := 20, radius := 5 }]).takeWhile
          fun c => decide (((4 : ℤ) : ℝ) < c.radius)).length,
        ((sortedByAreaDesc [{ area := 80, x := 10, y := 10, radius := 2 },
            { area := 100, x := 20, y := 20, radius := 5 }]).takeWhile
            fun c => decide (((4 : ℤ) : ℝ) < c.radius)).map
          (mkBallDetection 10 320 240 60)) :=
  detect_balls_early_exit_on_min_radius sampleBallValues 320 240 60
    [{ area := 80, x := 10, y := 10, radius := 2 },
      { area := 100, x := 20, y := 20, radius := 5 }] (0, 255, 0, 255, 0, 255) 4 10
    (by decide) (by decide) (by decide)

